import Mathlib

/-!
Verification development for the diagnostic firmware-update job
(`lib/jobs/emc-diag-update-firmware.js`).

The JavaScript source is shallowly embedded: JavaScript values occurring in
agent response bodies and job options are modelled by the inductive `JsValue`
(numbers are modelled as integers — every number appearing in the job's data
is integral), property access that throws a `TypeError` on `undefined`/`null`
is modelled in the `Except` monad, and the promise chain of `_run` is modelled
as a function from an environment of collaborator outcomes to the ordered list
of external calls plus the single argument passed to `_done`.
-/

/-- A JavaScript value, as far as the job's data model needs: `undefined`,
`null`, booleans, integral numbers, strings, arrays and plain objects
(an object is its ordered field list; lookup takes the first binding). -/
inductive JsValue where
  | undef : JsValue
  | null : JsValue
  | bool : Bool → JsValue
  | num : Int → JsValue
  | str : String → JsValue
  | arr : List JsValue → JsValue
  | obj : List (String × JsValue) → JsValue

namespace JsValue

mutual

/-- Decidable equality on `JsValue` (the nested inductive prevents automatic
derivation on this toolchain, so it is spelled out). -/
def decEq : (a b : JsValue) → Decidable (a = b)
  | undef, undef => .isTrue rfl
  | null, null => .isTrue rfl
  | bool x, bool y =>
    if h : x = y then .isTrue (by rw [h]) else
      .isFalse (by intro hc; injection hc; exact h ‹_›)
  | num x, num y =>
    if h : x = y then .isTrue (by rw [h]) else
      .isFalse (by intro hc; injection hc; exact h ‹_›)
  | str x, str y =>
    if h : x = y then .isTrue (by rw [h]) else
      .isFalse (by intro hc; injection hc; exact h ‹_›)
  | arr xs, arr ys =>
    match decEqList xs ys with
    | .isTrue h => .isTrue (by rw [h])
    | .isFalse h => .isFalse (by intro hc; injection hc; exact h ‹_›)
  | obj fs, obj gs =>
    match decEqFields fs gs with
    | .isTrue h => .isTrue (by rw [h])
    | .isFalse h => .isFalse (by intro hc; injection hc; exact h ‹_›)
  | undef, null => .isFalse (fun h => JsValue.noConfusion h)
  | undef, bool _ => .isFalse (fun h => JsValue.noConfusion h)
  | undef, num _ => .isFalse (fun h => JsValue.noConfusion h)
  | undef, str _ => .isFalse (fun h => JsValue.noConfusion h)
  | undef, arr _ => .isFalse (fun h => JsValue.noConfusion h)
  | undef, obj _ => .isFalse (fun h => JsValue.noConfusion h)
  | null, undef => .isFalse (fun h => JsValue.noConfusion h)
  | null, bool _ => .isFalse (fun h => JsValue.noConfusion h)
  | null, num _ => .isFalse (fun h => JsValue.noConfusion h)
  | null, str _ => .isFalse (fun h => JsValue.noConfusion h)
  | null, arr _ => .isFalse (fun h => JsValue.noConfusion h)
  | null, obj _ => .isFalse (fun h => JsValue.noConfusion h)
  | bool _, undef => .isFalse (fun h => JsValue.noConfusion h)
  | bool _, null => .isFalse (fun h => JsValue.noConfusion h)
  | bool _, num _ => .isFalse (fun h => JsValue.noConfusion h)
  | bool _, str _ => .isFalse (fun h => JsValue.noConfusion h)
  | bool _, arr _ => .isFalse (fun h => JsValue.noConfusion h)
  | bool _, obj _ => .isFalse (fun h => JsValue.noConfusion h)
  | num _, undef => .isFalse (fun h => JsValue.noConfusion h)
  | num _, null => .isFalse (fun h => JsValue.noConfusion h)
  | num _, bool _ => .isFalse (fun h => JsValue.noConfusion h)
  | num _, str _ => .isFalse (fun h => JsValue.noConfusion h)
  | num _, arr _ => .isFalse (fun h => JsValue.noConfusion h)
  | num _, obj _ => .isFalse (fun h => JsValue.noConfusion h)
  | str _, undef => .isFalse (fun h => JsValue.noConfusion h)
  | str _, null => .isFalse (fun h => JsValue.noConfusion h)
  | str _, bool _ => .isFalse (fun h => JsValue.noConfusion h)
  | str _, num _ => .isFalse (fun h => JsValue.noConfusion h)
  | str _, arr _ => .isFalse (fun h => JsValue.noConfusion h)
  | str _, obj _ => .isFalse (fun h => JsValue.noConfusion h)
  | arr _, undef => .isFalse (fun h => JsValue.noConfusion h)
  | arr _, null => .isFalse (fun h => JsValue.noConfusion h)
  | arr _, bool _ => .isFalse (fun h => JsValue.noConfusion h)
  | arr _, num _ => .isFalse (fun h => JsValue.noConfusion h)
  | arr _, str _ => .isFalse (fun h => JsValue.noConfusion h)
  | arr _, obj _ => .isFalse (fun h => JsValue.noConfusion h)
  | obj _, undef => .isFalse (fun h => JsValue.noConfusion h)
  | obj _, null => .isFalse (fun h => JsValue.noConfusion h)
  | obj _, bool _ => .isFalse (fun h => JsValue.noConfusion h)
  | obj _, num _ => .isFalse (fun h => JsValue.noConfusion h)
  | obj _, str _ => .isFalse (fun h => JsValue.noConfusion h)
  | obj _, arr _ => .isFalse (fun h => JsValue.noConfusion h)

/-- Decidable equality on lists of `JsValue`. -/
def decEqList : (xs ys : List JsValue) → Decidable (xs = ys)
  | [], [] => .isTrue rfl
  | [], _ :: _ => .isFalse (fun h => List.noConfusion h)
  | _ :: _, [] => .isFalse (fun h => List.noConfusion h)
  | x :: xs, y :: ys =>
    match decEq x y with
    | .isTrue h1 =>
      match decEqList xs ys with
      | .isTrue h2 => .isTrue (by rw [h1, h2])
      | .isFalse h2 => .isFalse (by intro hc; injection hc; exact h2 ‹_›)
    | .isFalse h1 => .isFalse (by intro hc; injection hc; exact h1 ‹_›)

/-- Decidable equality on object field lists. -/
def decEqFields : (fs gs : List (String × JsValue)) → Decidable (fs = gs)
  | [], [] => .isTrue rfl
  | [], _ :: _ => .isFalse (fun h => List.noConfusion h)
  | _ :: _, [] => .isFalse (fun h => List.noConfusion h)
  | (k1, v1) :: fs, (k2, v2) :: gs =>
    if hk : k1 = k2 then
      match decEq v1 v2 with
      | .isTrue hv =>
        match decEqFields fs gs with
        | .isTrue ht => .isTrue (by rw [hk, hv, ht])
        | .isFalse ht => .isFalse (by intro hc; injection hc; exact ht ‹_›)
      | .isFalse hv => .isFalse (by
          intro hc
          injection hc with hhd htl
          injection hhd with hhk hhv
          exact hv hhv)
    else .isFalse (by
      intro hc
      injection hc with hhd htl
      injection hhd with hhk hhv
      exact hk hhk)

end

instance : DecidableEq JsValue := decEq

/-- First binding for a key in an object's field list; `undefined` when the
key is absent (JavaScript property read on a plain object). -/
def lookupField (fields : List (String × JsValue)) (key : String) : JsValue :=
  match fields.find? (fun p => p.fst == key) with
  | some p => p.snd
  | none => undef

mutual

/-- JavaScript `String(v)` coercion (`undefined` → "undefined", `null` →
"null", numbers in decimal, arrays joined by commas with `undefined`/`null`
elements rendered empty, plain objects → "[object Object]"). -/
def toStr : JsValue → String
  | undef => "undefined"
  | null => "null"
  | bool true => "true"
  | bool false => "false"
  | num n => toString n
  | str s => s
  | arr xs => joinArr xs
  | obj _ => "[object Object]"

/-- `Array.prototype.join` with the default "," separator, as used by the
string coercion of an array. -/
def joinArr : List JsValue → String
  | [] => ""
  | x :: xs =>
    let hd := match x with
      | undef => ""
      | null => ""
      | v => toStr v
    match xs with
    | [] => hd
    | _ => hd ++ "," ++ joinArr xs

end

/-- lodash `_.toString`: like `String(v)` except `undefined` and `null`
become the empty string. -/
def lodashToString : JsValue → String
  | undef => ""
  | null => ""
  | v => toStr v

/-- Value of a run of decimal digits. -/
def decDigitsVal (cs : List Char) : Nat :=
  cs.foldl (fun acc c => acc * 10 + (c.toNat - 48)) 0

/-- Value of a run of hexadecimal digits. -/
def hexDigitsVal (cs : List Char) : Nat :=
  cs.foldl (fun acc c =>
    acc * 16 + (if c.isDigit then c.toNat - 48
      else if 97 ≤ c.toNat ∧ c.toNat ≤ 102 then c.toNat - 87
      else c.toNat - 55)) 0

def isHexDigitChar (c : Char) : Bool :=
  c.isDigit || (97 ≤ c.toNat && c.toNat ≤ 102) || (65 ≤ c.toNat && c.toNat ≤ 70)

def isJsSpace (c : Char) : Bool :=
  c = ' ' || c = '\t' || c = '\n' || c = '\r'

/-- JavaScript `parseInt` on a string (radix auto-detection): skip leading
whitespace, optional sign, then either a `0x`/`0X` hexadecimal run or a
leading decimal-digit run; `none` models `NaN` (no digits at all). -/
def strParseInt (s : String) : Option Int :=
  let cs := s.data.dropWhile isJsSpace
  let (neg, cs) := match cs with
    | '-' :: rest => (true, rest)
    | '+' :: rest => (false, rest)
    | _ => (false, cs)
  let mag : Option Nat := match cs with
    | '0' :: 'x' :: rest => parseHexRun rest
    | '0' :: 'X' :: rest => parseHexRun rest
    | _ =>
      let ds := cs.takeWhile Char.isDigit
      if ds.isEmpty then none else some (decDigitsVal ds)
  mag.map (fun m => if neg then -(m : Int) else (m : Int))
where
  parseHexRun (cs : List Char) : Option Nat :=
    let ds := cs.takeWhile isHexDigitChar
    if ds.isEmpty then none else some (hexDigitsVal ds)

/-- JavaScript `parseInt(v)`: numbers are already numbers; everything else is
string-coerced first (`parseInt(undefined)` parses "undefined" → NaN, etc.).
`none` models `NaN`. -/
def jsParseInt : JsValue → Option Int
  | num n => some n
  | v => strParseInt (toStr v)

/-- JavaScript `Number(s)` coercion of a string, restricted to the integral
literals that can arise here: empty/whitespace-only → 0, optionally signed
decimal-digit runs, unsigned `0x` hexadecimal runs; fractional and exponent
forms are not modelled (they coerce to `none`, i.e. NaN, in this model). -/
def strToNumber (s : String) : Option Int :=
  let cs := (s.data.dropWhile isJsSpace).reverse.dropWhile isJsSpace |>.reverse
  match cs with
  | [] => some 0
  | '0' :: 'x' :: rest =>
    if ¬ rest.isEmpty ∧ rest.all isHexDigitChar then some (hexDigitsVal rest) else none
  | '0' :: 'X' :: rest =>
    if ¬ rest.isEmpty ∧ rest.all isHexDigitChar then some (hexDigitsVal rest) else none
  | '-' :: rest =>
    if ¬ rest.isEmpty ∧ rest.all Char.isDigit then some (-(decDigitsVal rest : Int)) else none
  | '+' :: rest =>
    if ¬ rest.isEmpty ∧ rest.all Char.isDigit then some ((decDigitsVal rest : Int)) else none
  | _ =>
    if cs.all Char.isDigit then some ((decDigitsVal cs : Int)) else none

/-- JavaScript numeric coercion `Number(v)` (`none` models NaN):
`null` → 0, booleans → 0/1, strings and arrays via their string coercion,
plain objects → NaN. -/
def jsToNumber : JsValue → Option Int
  | undef => none
  | null => some 0
  | bool b => some (if b then 1 else 0)
  | num n => some n
  | str s => strToNumber s
  | arr xs => strToNumber (joinArr xs)
  | obj _ => none

/-- Is the string a canonical array-index key: non-empty, all decimal digits? -/
def isIndexKey (key : String) : Bool :=
  key.length ≠ 0 && key.data.all Char.isDigit

/-- JavaScript property read `v[key]` with a string key. Reading a property
of `undefined` or `null` throws a `TypeError` (modelled as `Except.error`);
every other receiver yields a value, defaulting to `undefined`. -/
def getProp : JsValue → String → Except String JsValue
  | undef, _ => .error "TypeError"
  | null, _ => .error "TypeError"
  | obj fields, key => .ok (lookupField fields key)
  | arr xs, key =>
    if key = "length" then .ok (num xs.length)
    else if isIndexKey key then
      .ok ((xs.get? (decDigitsVal key.data)).getD undef)
    else .ok undef
  | str s, key =>
    if key = "length" then .ok (num s.length)
    else if isIndexKey key then
      .ok (((s.data.get? (decDigitsVal key.data)).map
        (fun c => str (String.mk [c]))).getD undef)
    else .ok undef
  | num _, _ => .ok undef
  | bool _, _ => .ok undef

/-- JavaScript indexed read `v[i]` with an integral number index
(the index is coerced to its decimal string as a property key; arrays and
strings answer in-range indices directly, everything else as `getProp`). -/
def getIdx : JsValue → Int → Except String JsValue
  | undef, _ => .error "TypeError"
  | null, _ => .error "TypeError"
  | obj fields, i => .ok (lookupField fields (toString i))
  | arr xs, i =>
    if 0 ≤ i then .ok ((xs.get? i.toNat).getD undef) else .ok undef
  | str s, i =>
    if 0 ≤ i then
      .ok (((s.data.get? i.toNat).map (fun c => str (String.mk [c]))).getD undef)
    else .ok undef
  | num _, _ => .ok undef
  | bool _, _ => .ok undef

end JsValue

open JsValue

/-! ## Mode translation (`parseSpiMode`, `parseBmcMode`) -/

/-- The SPI mode mapping assigned to `this.spiModeMapping` in the
constructor. -/
def spiModeMapping : List (String × JsValue) :=
  [("fullbios", .str "0"), ("bios", .str "1"), ("uefi", .str "2"),
   ("serdes", .str "3"), ("post", .str "4"), ("me", .str "5")]

/-- The BMC mode mapping assigned to `this.bmcModeMapping` in the
constructor. -/
def bmcModeMapping : List (String × JsValue) :=
  [("ssp", .str "0x142"), ("bmcapp", .str "0x140"), ("bootblock", .str "0x144"),
   ("adaptivecooling", .str "0x145"), ("fullbmc", .str "0x5f")]

/-- `DiagUpdateFirmware.prototype.parseSpiMode`:
`parseInt(mode)`; when that is `NaN` the mode is looked up in
`spiModeMapping` (property read, `undefined` when unmapped); otherwise the
result is `_(mode).toString()` — the lodash string form of the *original*
argument, not of the parsed integer. -/
def parseSpiMode (mode : JsValue) : JsValue :=
  match jsParseInt mode with
  | none => lookupField spiModeMapping (toStr mode)
  | some _ => .str (lodashToString mode)

/-- lodash `_.startsWith(s, p)`: does `s` begin with the literal `p`? -/
def strStartsWith (s p : String) : Bool :=
  p.data.isPrefixOf s.data

/-- `DiagUpdateFirmware.prototype.parseBmcMode`:
if `_.startsWith(mode, '0x')` the mode passes through unchanged, else it is
looked up in `bmcModeMapping` (property read, `undefined` when unmapped). -/
def parseBmcMode (mode : JsValue) : JsValue :=
  if strStartsWith (lodashToString mode) "0x" then mode
  else lookupField bmcModeMapping (toStr mode)

/-- The list `assert.isIn` checks against in `updateSpi`. -/
def spiValidModes : List JsValue :=
  [.str "0", .str "1", .str "2", .str "3", .str "4", .str "5"]

/-- The list `assert.isIn` checks against in `updateBmc`. -/
def bmcValidModes : List JsValue :=
  [.str "0x142", .str "0x140", .str "0x144", .str "0x145", .str "0x5f"]

/-! ## SPI response-body validation -/

/-- The JavaScript expression
`body.result[body.result.length-2].atomic_test_data.secure_firmware_update`
inside the `try` block of `updateSpi`: each property read may throw
(`Except.error`), the `length` value is numerically coerced for the
subtraction, and a `NaN` index is looked up under the property key "NaN". -/
def spiResetFlag (body : JsValue) : Except String JsValue := do
  let res ← getProp body "result"
  let len ← getProp res "length"
  let entry ← match jsToNumber len with
    | some n => getIdx res (n - 2)
    | none => getProp res "NaN"
  let atd ← getProp entry "atomic_test_data"
  getProp atd "secure_firmware_update"

instance {ε α : Type} [DecidableEq ε] [DecidableEq α] : DecidableEq (Except ε α)
  | .ok x, .ok y =>
    if h : x = y then .isTrue (by rw [h]) else
      .isFalse (by intro hc; injection hc; exact h ‹_›)
  | .ok _, .error _ => .isFalse (fun h => Except.noConfusion h)
  | .error _, .ok _ => .isFalse (fun h => Except.noConfusion h)
  | .error x, .error y =>
    if h : x = y then .isTrue (by rw [h]) else
      .isFalse (by intro hc; injection hc; exact h ‹_›)

/-- The acceptance test of `updateSpi`'s first `.then`:
`parseFailed = !_.isEqual(resetFlag, 'Issue warm reset NOW!') || error`,
so the body is accepted exactly when the access chain evaluated without a
throw to precisely that string. -/
def spiBodyAccepted (body : JsValue) : Bool :=
  decide (spiResetFlag body = .ok (.str "Issue warm reset NOW!"))

/-! ## IP validation and method dispatch -/

/-- Split a character list at every '.' (the groups between dots, in
order, empty groups preserved) — the behaviour of splitting a string on
the "." separator. -/
def splitDots : List Char → List (List Char)
  | [] => [[]]
  | c :: rest =>
    if c = '.' then [] :: splitDots rest
    else
      match splitDots rest with
      | [] => [[c]]
      | g :: gs => (c :: g) :: gs

/-- `assert.isIP(ip, 4)`: a well-formed dotted-quad IPv4 address — four
dot-separated runs of one to three decimal digits, each of value at most
255. -/
def isIP4 (s : String) : Bool :=
  let parts := splitDots s.data
  parts.length = 4 &&
    parts.all (fun p =>
      p.length ≥ 1 && p.length ≤ 3 && p.all Char.isDigit &&
        decDigitsVal p ≤ 255)

/-- ASCII lower-casing of a string, as `_.toLower` behaves on the
identifiers at hand. -/
def jsToLower (s : String) : String := ⟨s.data.map Char.toLower⟩

/-- Upper-case the first character, as `_.upperFirst`. -/
def upperFirst (s : String) : String :=
  match s.data with
  | [] => ""
  | c :: cs => ⟨c.toUpper :: cs⟩

/-- lodash `_.capitalize`: lower-case the whole string, then upper-case the
first character. -/
def jsCapitalize (s : String) : String := upperFirst (jsToLower s)

/-! ## Job construction and the `_run` promise chain -/

/-- The error values that can reach `_done`. `external` carries an error
propagated from a rejected collaborator call (identified by a string),
the others originate inside the job itself. -/
inductive Err where
  | validationIp : Err
  | assertNotIn : JsValue → List JsValue → Err
  | typeErrorNoMethod : String → Err
  | updateProtocol : Err
  | external : String → Err
  deriving DecidableEq

/-- The `options` object handed to the constructor, restricted to the fields
the job reads. `skipReset` is `none` when the option is absent. -/
structure Options where
  imageUrl : String
  imageName : String
  imageMode : JsValue
  firmwareType : String
  skipReset : Option Bool
  deriving DecidableEq

/-- The `context` object: the target node identifier and the node IP the job
reads via `getNodeIp`. -/
structure Context where
  target : String
  nodeIp : String
  deriving DecidableEq

/-- The per-instance state the constructor establishes. -/
structure Job where
  nodeId : String
  imageUrl : String
  imageName : String
  imageMode : JsValue
  firmwareType : String
  skipReset : Bool
  diagImagePath : String
  retryCount : Nat
  retryDuration : Nat
  context : Context
  deriving DecidableEq

/-- The constructor body of `DiagUpdateFirmware`: it only copies fields and
fixes the constants (`skipReset = options.skipReset || false`,
`diagImagePath = '/uploads'`, `retryCount = 6`, `retryDuration = 5000`). -/
def buildJob (o : Options) (c : Context) : Job :=
  { nodeId := c.target
    imageUrl := o.imageUrl
    imageName := o.imageName
    imageMode := o.imageMode
    firmwareType := o.firmwareType
    skipReset := o.skipReset.getD false
    diagImagePath := "/uploads"
    retryCount := 6
    retryDuration := 5000
    context := c }

/-- `new DiagUpdateFirmware(options, context, taskId)` as an operation that
could in principle fail: the constructor performs no validation of the
options or the context (in particular neither of `nodeIp` nor of
`firmwareType`), so it always succeeds. -/
def constructJob (o : Options) (c : Context) : Except Err Job :=
  .ok (buildJob o c)

/-- Outcomes of the injected collaborator (`JobUtils.DiagTool`) calls: each
field is how the corresponding promise settles for this run —
`.ok` for fulfilment (with the resolution body for `updateFirmware`),
`.error s` for rejection with error `s`. -/
structure Env where
  retrySyncDiscovery : Except String Unit
  getAllDevices : Except String Unit
  uploadImageFile : Except String Unit
  updateFirmware : Except String JsValue
  bmcReset : Except String Unit
  warmReset : Except String Unit
  deriving DecidableEq

/-- One outbound call to the diag tool, with the arguments the job passes. -/
inductive ExtCall where
  | retrySyncDiscovery : Nat → Nat → ExtCall
  | getAllDevices : ExtCall
  | uploadImageFile : String → String → String → ExtCall
  | updateFirmware : String → String → JsValue → String → ExtCall
  | bmcReset : Bool → ExtCall
  | warmReset : Bool → ExtCall
  deriving DecidableEq

/-- An observable event of a run: an external call, or the single `_done`
completion with its optional error. -/
inductive Call where
  | ext : ExtCall → Call
  | done : Option Err → Call
  deriving DecidableEq

/-- The trailing reset step shared by both update paths: skipped entirely
when `skipReset`, otherwise the reset collaborator is called with flag
`false` and its rejection becomes the job's error. -/
def runReset (j : Job) (outcome : Except String Unit) (call : Bool → ExtCall) :
    List ExtCall × Option Err :=
  if j.skipReset then ([], none)
  else
    match outcome with
    | .ok _ => ([call false], none)
    | .error e => ([call false], some (.external e))

/-- `DiagUpdateFirmware.prototype.updateBmc`: translate the mode, assert it
is one of the five BMC codes (an assertion failure rejects before any call),
invoke `updateFirmware('bmc', ...)` ignoring its resolution body, then the
conditional BMC reset. -/
def updateBmcRun (j : Job) (env : Env) : List ExtCall × Option Err :=
  let m := parseBmcMode j.imageMode
  if m ∈ bmcValidModes then
    match env.updateFirmware with
    | .error e =>
      ([.updateFirmware "bmc" j.imageName m j.diagImagePath], some (.external e))
    | .ok _ =>
      let rest := runReset j env.bmcReset .bmcReset
      (.updateFirmware "bmc" j.imageName m j.diagImagePath :: rest.1, rest.2)
  else ([], some (.assertNotIn m bmcValidModes))

/-- `DiagUpdateFirmware.prototype.updateSpi`: translate the mode, assert it
is one of '0'..'5', invoke `updateFirmware('spi', ...)`, validate the
resolution body via the reset-flag chain (any parse throw or mismatch
throws the single update-protocol error), then the conditional warm
reset. -/
def updateSpiRun (j : Job) (env : Env) : List ExtCall × Option Err :=
  let m := parseSpiMode j.imageMode
  if m ∈ spiValidModes then
    match env.updateFirmware with
    | .error e =>
      ([.updateFirmware "spi" j.imageName m j.diagImagePath], some (.external e))
    | .ok body =>
      if spiBodyAccepted body then
        let rest := runReset j env.warmReset .warmReset
        (.updateFirmware "spi" j.imageName m j.diagImagePath :: rest.1, rest.2)
      else
        ([.updateFirmware "spi" j.imageName m j.diagImagePath], some .updateProtocol)
  else ([], some (.assertNotIn m spiValidModes))

/-- The dispatching `.then` of `_run`:
`method = 'update' + _.capitalize(firmwareType); self[method](...)`.
The prototype's only `update`-prefixed methods are `updateBmc` and
`updateSpi`, so the lookup hits a function exactly when the capitalized
type is "Bmc" or "Spi"; otherwise `self[method]` is `undefined` and the
invocation throws a `TypeError`. -/
def dispatchRun (j : Job) (env : Env) : List ExtCall × Option Err :=
  let cap := jsCapitalize j.firmwareType
  if cap = "Bmc" then updateBmcRun j env
  else if cap = "Spi" then updateSpiRun j env
  else ([], some (.typeErrorNoMethod ("update" ++ cap)))

/-- The body of `DiagUpdateFirmware.prototype._run` up to (but excluding)
the final `_done`: `getNodeIp` (whose `assert.isIP(ip, 4)` throw is caught
by the chain), then `retrySyncDiscovery(retryDuration, retryCount)`,
`getAllDevices`, `uploadImageFile(imageUrl, imageName, '/api/upload/file')`,
then the dispatched update procedure. Returns the external calls made, in
order, and the error reaching the final `.catch` (if any). -/
def jobRunAux (j : Job) (env : Env) : List ExtCall × Option Err :=
  if isIP4 j.context.nodeIp then
    match env.retrySyncDiscovery with
    | .error e =>
      ([.retrySyncDiscovery j.retryDuration j.retryCount], some (.external e))
    | .ok _ =>
      match env.getAllDevices with
      | .error e =>
        ([.retrySyncDiscovery j.retryDuration j.retryCount, .getAllDevices],
          some (.external e))
      | .ok _ =>
        match env.uploadImageFile with
        | .error e =>
          ([.retrySyncDiscovery j.retryDuration j.retryCount, .getAllDevices,
            .uploadImageFile j.imageUrl j.imageName "/api/upload/file"],
            some (.external e))
        | .ok _ =>
          let rest := dispatchRun j env
          ([.retrySyncDiscovery j.retryDuration j.retryCount, .getAllDevices,
            .uploadImageFile j.imageUrl j.imageName "/api/upload/file"] ++ rest.1,
            rest.2)
  else ([], some .validationIp)

/-- The full observable behaviour of one `_run`. -/
structure RunResult where
  calls : List Call
  doneArg : Option Err
  deriving DecidableEq

/-- `_run`: the promise chain followed by the single terminal
`.then(() => _done()) / .catch(err => _done(err))`. -/
def jobRun (j : Job) (env : Env) : RunResult :=
  let aux := jobRunAux j env
  { calls := aux.1.map .ext ++ [.done aux.2], doneArg := aux.2 }

/-! ## The discovery retry loop, modelled from the spec -/

/-- Modelled from the spec: `retrySyncDiscovery` belongs to
`JobUtils.DiagTool`, which is not under `src/` (only its caller is). Per the
spec it "repeatedly attempts synchronous discovery", retrying "a fixed
number of times separated by a fixed delay — not exponential backoff", and
"exhausting retries without success fails the job with a discovery-timeout
error". `attempt i` tells whether the i-th attempt (0-based) succeeds; the
number of attempts actually performed is the position of the first success
plus one, or `retries` when none succeeds. -/
def discoveryAttemptCount (attempt : Nat → Bool) (retries : Nat) : Nat :=
  match (List.range retries).findIdx? (fun i => attempt i) with
  | some i => i + 1
  | none => retries

/-- Modelled from the spec: the start time (in ms after the first attempt)
of the i-th discovery attempt under a fixed inter-attempt delay. -/
def discoveryAttemptTime (delayMs i : Nat) : Nat := i * delayMs

/-- Modelled from the spec: the overall outcome of
`retrySyncDiscovery(delayMs, retries)` — fulfilment as soon as some attempt
within the budget succeeds, else rejection with a discovery-timeout
error. -/
def retrySyncDiscoveryModel (attempt : Nat → Bool) (_delayMs retries : Nat) :
    Except String Unit :=
  if (List.range retries).any (fun i => attempt i) then .ok ()
  else .error "discovery timeout"

/-! ## Spec-side characterisations -/

/-- The first `some` in a list of optional failures. -/
def firstSome : List (Option Err) → Option Err
  | [] => none
  | some e :: _ => some e
  | none :: rest => firstSome rest

/-- Which update procedure the firmware type selects, spec-side:
`some true` for the BMC path, `some false` for the SPI path, `none` when
the lookup yields no function. -/
def pathOf (j : Job) : Option Bool :=
  if jsCapitalize j.firmwareType = "Bmc" then some true
  else if jsCapitalize j.firmwareType = "Spi" then some false
  else none

/-- Spec-side failure of the update-dispatch stage: mode validation, then
the agent call, then (SPI only) the response-body validation; a missing
update method is the stage's failure as well. -/
def dispatchFailure (j : Job) (env : Env) : Option Err :=
  match pathOf j with
  | some true =>
    if parseBmcMode j.imageMode ∈ bmcValidModes then
      match env.updateFirmware with
      | .ok _ => none
      | .error e => some (.external e)
    else some (.assertNotIn (parseBmcMode j.imageMode) bmcValidModes)
  | some false =>
    if parseSpiMode j.imageMode ∈ spiValidModes then
      match env.updateFirmware with
      | .ok body => if spiBodyAccepted body then none else some .updateProtocol
      | .error e => some (.external e)
    else some (.assertNotIn (parseSpiMode j.imageMode) spiValidModes)
  | none => some (.typeErrorNoMethod ("update" ++ jsCapitalize j.firmwareType))

/-- Spec-side failure of the optional reset stage (only meaningful when all
earlier stages succeeded): skipped under `skipReset`, otherwise the path's
reset outcome. -/
def resetFailure (j : Job) (env : Env) : Option Err :=
  if j.skipReset then none
  else
    match pathOf j with
    | some true => match env.bmcReset with | .ok _ => none | .error e => some (.external e)
    | some false => match env.warmReset with | .ok _ => none | .error e => some (.external e)
    | none => none

/-- The job's stages in order, each with its own failure, spec-side: IP
validation, discovery, enumeration, upload, update dispatch, optional
reset. -/
def stageFailures (j : Job) (env : Env) : List (Option Err) :=
  [ if isIP4 j.context.nodeIp then none else some .validationIp,
    match env.retrySyncDiscovery with | .ok _ => none | .error e => some (.external e),
    match env.getAllDevices with | .ok _ => none | .error e => some (.external e),
    match env.uploadImageFile with | .ok _ => none | .error e => some (.external e),
    dispatchFailure j env,
    resetFailure j env ]

/-- The originating error of the first failing stage, spec-side. -/
def firstFailure (j : Job) (env : Env) : Option Err :=
  firstSome (stageFailures j env)

/-- Is the event a `_done` completion? -/
def isDoneCall : Call → Bool
  | .done _ => true
  | .ext _ => false

/-- Spec-side acceptance condition of claim C1 for a genuine result array:
the array has at least two entries, and its second-to-last entry carries an
`atomic_test_data` object whose `secure_firmware_update` field is exactly
the reset-prompt literal. -/
def specAcceptsArr (xs : List JsValue) : Bool :=
  if 2 ≤ xs.length then
    match (xs.get? (xs.length - 2)).getD .undef with
    | .obj entryFields =>
      match lookupField entryFields "atomic_test_data" with
      | .obj atdFields =>
        decide (lookupField atdFields "secure_firmware_update" =
          .str "Issue warm reset NOW!")
      | _ => false
    | _ => false
  else false

/-- Does the body have a `result` field that is a genuine array? -/
def resultIsArray (body : JsValue) : Bool :=
  match body with
  | .obj fields =>
    match lookupField fields "result" with
    | .arr _ => true
    | _ => false
  | _ => false

lemma exBind_ok {e a b : Type} (x : a) (f : a → Except e b) :
    (Except.ok x >>= f : Except e b) = f x := rfl

lemma exBind_err {e a b : Type} (err : e) (f : a → Except e b) :
    (Except.error err >>= f : Except e b) = Except.error err := rfl

lemma getProp_obj (fs : List (String × JsValue)) (k : String) :
    getProp (.obj fs) k = .ok (lookupField fs k) := rfl

lemma getProp_arr_length (ys : List JsValue) :
    getProp (.arr ys) "length" = .ok (.num ys.length) := rfl

lemma getProp_arr_named (ys : List JsValue) (k : String)
    (h1 : (k = "length") = False) (h2 : isIndexKey k = false) :
    getProp (.arr ys) k = .ok .undef := by
  simp [getProp, h1, h2]

lemma getProp_str_named (s : String) (k : String)
    (h1 : (k = "length") = False) (h2 : isIndexKey k = false) :
    getProp (.str s) k = .ok .undef := by
  simp [getProp, h1, h2]

lemma spiAccepted_of_result_arr (fields : List (String × JsValue)) (xs : List JsValue)
    (h : lookupField fields "result" = .arr xs) :
    spiBodyAccepted (.obj fields) = specAcceptsArr xs := by
  have hik1 : isIndexKey "atomic_test_data" = false := by decide
  have hik2 : isIndexKey "secure_firmware_update" = false := by decide
  have hkl1 : ("atomic_test_data" = "length") = False := by simp
  have hkl2 : ("secure_firmware_update" = "length") = False := by simp
  unfold spiBodyAccepted spiResetFlag
  rw [getProp_obj, h]
  simp only [exBind_ok]
  simp only [getProp_arr_length]
  simp only [exBind_ok, jsToNumber]
  rcases xs with _ | ⟨a, xs2⟩
  · simp [getIdx, specAcceptsArr, exBind_ok, exBind_err, getProp]
  rcases xs2 with _ | ⟨b, xs3⟩
  · simp [getIdx, specAcceptsArr, exBind_ok, exBind_err, getProp]
  unfold specAcceptsArr
  have hlen : (a :: b :: xs3).length = xs3.length + 2 := by simp
  simp only [hlen]
  have harith : xs3.length + 2 - 2 = xs3.length := by omega
  have hlen2 : 2 ≤ xs3.length + 2 := by omega
  have hpos : (0:Int) ≤ (↑(xs3.length + 2) : Int) - 2 := by push_cast; omega
  have hidx : ((↑(xs3.length + 2) : Int) - 2).toNat = xs3.length := by push_cast; omega
  simp only [harith, hlen2, if_true]
  simp only [getIdx, hpos, hidx, if_true]
  simp only [exBind_ok]
  generalize ((a :: b :: xs3).get? xs3.length).getD JsValue.undef = e
  rcases e with _ | _ | bb | nn | ss | ys | entryFields
  · simp [getProp, exBind_err]
  · simp [getProp, exBind_err]
  · simp [getProp, exBind_ok, exBind_err]
  · simp [getProp, exBind_ok, exBind_err]
  · simp only [getProp_str_named ss "atomic_test_data" hkl1 hik1]
    simp [exBind_ok, exBind_err, getProp]
  · simp only [getProp_arr_named ys "atomic_test_data" hkl1 hik1]
    simp [exBind_ok, exBind_err, getProp]
  · simp only [getProp_obj]
    simp only [exBind_ok]
    have hfin : ∀ v : JsValue,
        decide (getProp v "secure_firmware_update" =
            Except.ok (JsValue.str "Issue warm reset NOW!")) =
          (match v with
           | JsValue.obj atdFields =>
             decide (lookupField atdFields "secure_firmware_update" =
               JsValue.str "Issue warm reset NOW!")
           | _ => false) := by
      intro v
      rcases v with _ | _ | b2 | n2 | s2 | y2 | atdFields
      · simp [getProp]
      · simp [getProp]
      · simp [getProp]
      · simp [getProp]
      · simp only [getProp_str_named s2 "secure_firmware_update" hkl2 hik2]
        simp
      · simp only [getProp_arr_named y2 "secure_firmware_update" hkl2 hik2]
        simp
      · simp only [getProp_obj]
        simp
    exact hfin (lookupField entryFields "atomic_test_data")

lemma jobRunAux_snd (j : Job) (env : Env) :
    (jobRunAux j env).2 = firstFailure j env := by
  obtain ⟨d, g, u, f, br, wr⟩ := env
  unfold jobRunAux firstFailure stageFailures
  by_cases hip : isIP4 j.context.nodeIp
  case neg => simp [hip, firstSome]
  rcases d with e1 | _
  · simp [hip, firstSome]
  rcases g with e2 | _
  · simp [hip, firstSome]
  rcases u with e3 | _
  · simp [hip, firstSome]
  simp only [hip, if_true, firstSome]
  unfold dispatchRun dispatchFailure resetFailure pathOf
  by_cases hb : jsCapitalize j.firmwareType = "Bmc"
  · unfold updateBmcRun runReset
    simp only [hb, if_true]
    by_cases hbm : parseBmcMode j.imageMode ∈ bmcValidModes
    · rcases f with e4 | body
      · simp [hbm, firstSome]
      · cases hsr : j.skipReset
        all_goals rcases br with e5 | _
        all_goals simp [hbm, hsr, firstSome]
    · simp [hbm, firstSome]
  by_cases hs : jsCapitalize j.firmwareType = "Spi"
  · unfold updateSpiRun runReset
    simp only [hb, hs, if_true, if_false]
    by_cases hsm : parseSpiMode j.imageMode ∈ spiValidModes
    · rcases f with e4 | body
      · simp [hsm, firstSome]
      · cases hacc : spiBodyAccepted body
        all_goals cases hsr : j.skipReset
        all_goals rcases wr with e5 | _
        all_goals simp [hsm, hacc, hsr, firstSome]
    · simp [hsm, firstSome]
  · simp [hb, hs, firstSome]

lemma countDone_map_ext (l : List ExtCall) :
    ((l.map Call.ext).countP (fun c => isDoneCall c)) = 0 := by
  induction l with
  | nil => simp
  | cons a t ih => simp [List.countP_cons, isDoneCall, ih]

lemma firstSome_eq_none_iff (l : List (Option Err)) :
    firstSome l = none ↔ ∀ x ∈ l, x = none := by
  induction l with
  | nil => simp [firstSome]
  | cons a t ih =>
    cases a
    all_goals simp [firstSome, ih]

/-! ## Concrete fixtures -/

/-- A well-formed SPI response body: `result` is an array whose second-to-last
entry carries the reset prompt. -/
def goodBody : JsValue :=
  .obj [("result", .arr [
    .obj [("atomic_test_data",
      .obj [("secure_firmware_update", .str "Issue warm reset NOW!")])],
    .obj [("test_result", .str "pass")]])]

/-- A body whose `result` is *not* an array but an array-like object: the
property chain of `updateSpi` still reaches the reset prompt
(`result.length` is 5, so the chain reads `result[3]`). -/
def duckBody : JsValue :=
  .obj [("result", .obj [
    ("length", .num 5),
    ("3", .obj [("atomic_test_data",
      .obj [("secure_firmware_update", .str "Issue warm reset NOW!")])])])]

/-- An environment in which every collaborator call succeeds and
`updateFirmware` resolves with the given body. -/
def envOkWith (b : JsValue) : Env :=
  { retrySyncDiscovery := .ok ()
    getAllDevices := .ok ()
    uploadImageFile := .ok ()
    updateFirmware := .ok b
    bmcReset := .ok ()
    warmReset := .ok () }

/-- SPI update options with the symbolic mode "bios". -/
def optsSpi : Options :=
  { imageUrl := "http://172.31.128.1/common/img.bin", imageName := "img.bin",
    imageMode := .str "bios", firmwareType := "spi", skipReset := none }

/-- BMC update options with the symbolic mode "ssp". -/
def optsBmc : Options :=
  { imageUrl := "http://172.31.128.1/common/img.bin", imageName := "img.bin",
    imageMode := .str "ssp", firmwareType := "bmc", skipReset := none }

/-- A context with a well-formed IPv4 node IP. -/
def ctxGood : Context := { target := "node1", nodeIp := "10.1.1.3" }

/-- A context whose node IP is not a well-formed IPv4 address. -/
def ctxBadIp : Context := { target := "node1", nodeIp := "not-an-ip" }

/-! ## Claims -/

/-- C1, counterexample. The claim says every body other than one whose
`result` array carries the reset prompt at the second-to-last entry fails
the job ("wrong shape" included). But the validation is a raw property
chain: `duckBody.result` is a plain object (not an array) with a `length`
field of 5 and the prompt under key "3", the chain
`body.result[body.result.length-2]...` reaches the prompt, the update is
accepted, and the warm reset is issued. -/
theorem claim_C1_counterexample :
    resultIsArray duckBody = false ∧
    spiBodyAccepted duckBody = true ∧
    (jobRun (buildJob optsSpi ctxGood) (envOkWith duckBody)).doneArg = none ∧
    Call.ext (.warmReset false) ∈
      (jobRun (buildJob optsSpi ctxGood) (envOkWith duckBody)).calls := by
  refine ⟨by decide, by decide, by decide, by decide⟩

/-- C1, amended. With a valid SPI mode, once `updateFirmware('spi', ...)`
resolves with `body`: the job fails with the single update-protocol error
exactly when the raw property chain
`body.result[body.result.length-2].atomic_test_data.secure_firmware_update`
does not evaluate (without throwing) to precisely "Issue warm reset NOW!";
whenever `body.result` is a genuine array this acceptance test coincides
with the claim's second-to-last-entry condition; and on rejection the only
call made is the update itself — the error is the single update-protocol
error and no warm reset is attempted. (Non-array "array-like" `result`
values can also be accepted, per the counterexample.) -/
theorem claim_C1_amended (j : Job) (env : Env) (body : JsValue)
    (hmode : parseSpiMode j.imageMode ∈ spiValidModes)
    (hbody : env.updateFirmware = .ok body) :
    ((updateSpiRun j env).2 = some .updateProtocol ↔ spiBodyAccepted body = false) ∧
    (∀ fields xs, body = .obj fields → lookupField fields "result" = .arr xs →
      spiBodyAccepted body = specAcceptsArr xs) ∧
    (spiBodyAccepted body = false →
      updateSpiRun j env =
        ([.updateFirmware "spi" j.imageName (parseSpiMode j.imageMode) j.diagImagePath],
         some .updateProtocol)) := by
  refine ⟨?_, ?_, ?_⟩
  · unfold updateSpiRun runReset
    cases hacc : spiBodyAccepted body
    all_goals cases hsr : j.skipReset
    all_goals rcases hwr : env.warmReset with e2 | u2
    all_goals simp_all [hmode]
  · intro fields xs hb hr
    subst hb
    exact spiAccepted_of_result_arr fields xs hr
  · intro hacc
    unfold updateSpiRun
    simp [hmode, hbody, hacc]

/-- C1 amended, witness at a rejected body (`result` is an empty array). -/
theorem claim_C1_amended_witness :
    parseSpiMode (buildJob optsSpi ctxGood).imageMode ∈ spiValidModes ∧
    spiBodyAccepted (.obj [("result", .arr [])]) = false ∧
    updateSpiRun (buildJob optsSpi ctxGood) (envOkWith (.obj [("result", .arr [])])) =
      ([.updateFirmware "spi" (buildJob optsSpi ctxGood).imageName
          (parseSpiMode (buildJob optsSpi ctxGood).imageMode)
          (buildJob optsSpi ctxGood).diagImagePath],
       some .updateProtocol) :=
  ⟨by decide, by decide,
   (claim_C1_amended (buildJob optsSpi ctxGood)
     (envOkWith (.obj [("result", .arr [])])) (.obj [("result", .arr [])])
     (by decide) rfl).2.2 (by decide)⟩

/-- C3, counterexample. The claim says that an input which parses as an
integer comes back as its decimal string form. The string "3abc" parses as
the integer 3 under `parseInt`, yet `parseSpiMode` returns the lodash string
form of the *original* input — "3abc", not "3". -/
theorem claim_C3_counterexample :
    jsParseInt (.str "3abc") = some 3 ∧
    parseSpiMode (.str "3abc") = .str "3abc" ∧
    parseSpiMode (.str "3abc") ≠ .str "3" := by
  refine ⟨by decide, by decide, by decide⟩

/-- C3, amended. For every input that `parseInt` accepts (not NaN),
`parseSpiMode` returns the lodash string form of the original input (which
is the decimal form for integer inputs and canonical decimal strings, but
the unchanged input for strings such as "3abc"); for every other input it
returns the SPI-mapping lookup (undefined when unmapped); in particular
every valid identifier in {fullbios,bios,uefi,serdes,post,me} ∪ {0..5}
(numbers or strings) yields the corresponding string in {"0".."5"}. -/
theorem claim_C3_amended :
    (∀ v : JsValue, (jsParseInt v).isSome →
      parseSpiMode v = .str (lodashToString v)) ∧
    (∀ v : JsValue, jsParseInt v = none →
      parseSpiMode v = lookupField spiModeMapping (toStr v)) ∧
    (parseSpiMode (.str "fullbios") = .str "0" ∧
     parseSpiMode (.str "bios") = .str "1" ∧
     parseSpiMode (.str "uefi") = .str "2" ∧
     parseSpiMode (.str "serdes") = .str "3" ∧
     parseSpiMode (.str "post") = .str "4" ∧
     parseSpiMode (.str "me") = .str "5") ∧
    (∀ n : Int, 0 ≤ n → n ≤ 5 → parseSpiMode (.num n) = .str (toString n)) ∧
    (parseSpiMode (.str "0") = .str "0" ∧
     parseSpiMode (.str "1") = .str "1" ∧
     parseSpiMode (.str "2") = .str "2" ∧
     parseSpiMode (.str "3") = .str "3" ∧
     parseSpiMode (.str "4") = .str "4" ∧
     parseSpiMode (.str "5") = .str "5") := by
  refine ⟨?_, ?_, by decide, ?_, by decide⟩
  · intro v h
    unfold parseSpiMode
    cases hj : jsParseInt v with
    | none => rw [hj] at h; simp at h
    | some n => rfl
  · intro v h
    unfold parseSpiMode
    rw [h]
  · intro n h0 h5
    unfold parseSpiMode jsParseInt
    rfl

/-- C4, confirmed. `parseBmcMode` passes any input whose string form begins
with "0x" through unchanged; every other input is looked up in the BMC
mapping, and each of the five valid identifiers yields its hex code, which
lies in the BMC valid-output set. -/
theorem claim_C4 :
    (∀ s : String, strStartsWith s "0x" → parseBmcMode (.str s) = .str s) ∧
    (∀ s : String, ¬ strStartsWith s "0x" →
      parseBmcMode (.str s) = lookupField bmcModeMapping s) ∧
    (parseBmcMode (.str "ssp") = .str "0x142" ∧
     parseBmcMode (.str "bmcapp") = .str "0x140" ∧
     parseBmcMode (.str "bootblock") = .str "0x144" ∧
     parseBmcMode (.str "adaptivecooling") = .str "0x145" ∧
     parseBmcMode (.str "fullbmc") = .str "0x5f") ∧
    (∀ s : String, ¬ strStartsWith s "0x" →
      parseBmcMode (.str s) ≠ .undef → parseBmcMode (.str s) ∈ bmcValidModes) := by
  refine ⟨?_, ?_, ⟨rfl, rfl, rfl, rfl, rfl⟩, ?_⟩
  · intro s h
    unfold parseBmcMode
    simp only [lodashToString, toStr, h, if_true]
  · intro s h
    unfold parseBmcMode
    simp [lodashToString, toStr, h]
  · intro s h hne
    unfold parseBmcMode at hne ⊢
    simp [lodashToString, toStr, h] at hne ⊢
    revert hne
    unfold lookupField bmcModeMapping
    simp only [List.find?]
    by_cases h1 : ("ssp" == s) = true
    all_goals simp [h1, bmcValidModes]
    all_goals by_cases h2 : ("bmcapp" == s) = true
    all_goals simp [h2]
    all_goals by_cases h3 : ("bootblock" == s) = true
    all_goals simp [h3]
    all_goals by_cases h4 : ("adaptivecooling" == s) = true
    all_goals simp [h4]
    all_goals by_cases h5 : ("fullbmc" == s) = true
    all_goals simp [h5]

/-- C3 amended, witness at the integer input 3. -/
theorem claim_C3_amended_witness :
    (jsParseInt (JsValue.num 3)).isSome = true ∧
    parseSpiMode (JsValue.num 3) = .str (lodashToString (JsValue.num 3)) :=
  ⟨by decide, claim_C3_amended.1 (JsValue.num 3) (by decide)⟩

/-- C4, witness at an already-prefixed raw code. -/
theorem claim_C4_witness :
    strStartsWith "0xabc" "0x" = true ∧
    parseBmcMode (.str "0xabc") = .str "0xabc" :=
  ⟨by decide, claim_C4.1 "0xabc" (by decide)⟩

/-- C5, confirmed. When the translated BMC mode is not one of the five
valid codes, `updateBmc` fails with the mode-validation assertion before
making any call: no `updateFirmware`, no reset. -/
theorem claim_C5 (j : Job) (env : Env)
    (hmode : parseBmcMode j.imageMode ∉ bmcValidModes) :
    updateBmcRun j env =
      ([], some (.assertNotIn (parseBmcMode j.imageMode) bmcValidModes)) := by
  unfold updateBmcRun
  simp [hmode]

/-- C5, witness at the raw passed-through code "0x999" (outside the valid
set). -/
theorem claim_C5_witness :
    parseBmcMode (JsValue.str "0x999") ∉ bmcValidModes ∧
    updateBmcRun (buildJob { optsBmc with imageMode := .str "0x999" } ctxGood)
        (envOkWith goodBody) =
      ([], some (.assertNotIn (parseBmcMode (JsValue.str "0x999")) bmcValidModes)) :=
  ⟨by decide,
   claim_C5 (buildJob { optsBmc with imageMode := .str "0x999" } ctxGood)
     (envOkWith goodBody) (by decide)⟩

/-- C10, confirmed. The BMC path never inspects the `updateFirmware`
resolution body: runs differing only in that body are indistinguishable
(same calls, same completion), and with a valid mode the path proceeds from
the update call directly to the reset step — or to success when `skipReset`
is set. -/
theorem claim_C10 (j : Job) (env : Env) (b1 b2 : JsValue)
    (hft : jsCapitalize j.firmwareType = "Bmc") :
    updateBmcRun j { env with updateFirmware := .ok b1 } =
      updateBmcRun j { env with updateFirmware := .ok b2 } ∧
    jobRun j { env with updateFirmware := .ok b1 } =
      jobRun j { env with updateFirmware := .ok b2 } ∧
    (parseBmcMode j.imageMode ∈ bmcValidModes →
      (j.skipReset = false →
        (updateBmcRun j { env with updateFirmware := .ok b1 }).1 =
          [.updateFirmware "bmc" j.imageName (parseBmcMode j.imageMode) j.diagImagePath,
           .bmcReset false]) ∧
      (j.skipReset = true →
        updateBmcRun j { env with updateFirmware := .ok b1 } =
          ([.updateFirmware "bmc" j.imageName (parseBmcMode j.imageMode) j.diagImagePath],
            none))) := by
  obtain ⟨d, g, u, f, br, wr⟩ := env
  have h1 : updateBmcRun j
      { retrySyncDiscovery := d
        getAllDevices := g
        uploadImageFile := u
        updateFirmware := .ok b1
        bmcReset := br
        warmReset := wr } =
      updateBmcRun j
      { retrySyncDiscovery := d
        getAllDevices := g
        uploadImageFile := u
        updateFirmware := .ok b2
        bmcReset := br
        warmReset := wr } := by
    unfold updateBmcRun
    simp
  refine ⟨h1, ?_, ?_⟩
  · unfold jobRun jobRunAux dispatchRun
    cases d
    all_goals cases g
    all_goals cases u
    all_goals simp [hft, h1]
  · intro hm
    constructor
    · intro hsr
      unfold updateBmcRun runReset
      cases br
      all_goals simp [hm, hsr]
    · intro hsr
      unfold updateBmcRun runReset
      simp [hm, hsr]

/-- The three possible call lists of the BMC update path: nothing (assertion
failure), the update call alone, or the update call followed by
`bmcReset(false)` — the latter only when `skipReset` is false. -/
lemma updateBmcRun_calls_shape (j : Job) (env : Env) :
    (updateBmcRun j env).1 = [] ∨
    (updateBmcRun j env).1 =
      [.updateFirmware "bmc" j.imageName (parseBmcMode j.imageMode) j.diagImagePath] ∨
    ((updateBmcRun j env).1 =
      [.updateFirmware "bmc" j.imageName (parseBmcMode j.imageMode) j.diagImagePath,
       .bmcReset false] ∧ j.skipReset = false) := by
  unfold updateBmcRun runReset
  by_cases hbm : parseBmcMode j.imageMode ∈ bmcValidModes
  · rcases henv : env.updateFirmware with e | bd
    all_goals cases hsr : j.skipReset
    all_goals rcases hbr : env.bmcReset with e2 | u2
    all_goals simp [hbm, henv, hsr, hbr]
  · simp [hbm]

/-- The three possible call lists of the SPI update path: nothing (assertion
failure), the update call alone, or the update call followed by
`warmReset(false)` — the latter only when `skipReset` is false. -/
lemma updateSpiRun_calls_shape (j : Job) (env : Env) :
    (updateSpiRun j env).1 = [] ∨
    (updateSpiRun j env).1 =
      [.updateFirmware "spi" j.imageName (parseSpiMode j.imageMode) j.diagImagePath] ∨
    ((updateSpiRun j env).1 =
      [.updateFirmware "spi" j.imageName (parseSpiMode j.imageMode) j.diagImagePath,
       .warmReset false] ∧ j.skipReset = false) := by
  unfold updateSpiRun runReset
  by_cases hsm : parseSpiMode j.imageMode ∈ spiValidModes
  · rcases henv : env.updateFirmware with e | bd
    · cases hsr : j.skipReset
      all_goals simp [hsm, henv, hsr]
    · cases hsr : j.skipReset
      all_goals rcases hwr : env.warmReset with e2 | u2
      all_goals by_cases hacc : spiBodyAccepted bd = true
      all_goals simp_all [hsm]
  · simp [hsm]

/-- C8, confirmed. `skipReset` defaults to false when the option is absent;
after a successful firmware-update call the BMC path issues `bmcReset(false)`
and the SPI path (with an accepted body) issues `warmReset(false)` exactly
when `skipReset` is false, a rejected reset call becomes the job's error,
under `skipReset` no reset call of either kind is ever made, and any reset
call that does occur carries the flag `false`. -/
theorem claim_C8 (o : Options) (c : Context) (j : Job) (env : Env) (body : JsValue) :
    (o.skipReset = none → (buildJob o c).skipReset = false) ∧
    (parseBmcMode j.imageMode ∈ bmcValidModes → env.updateFirmware = .ok body →
      ((j.skipReset = false →
          (updateBmcRun j env).1 =
            [.updateFirmware "bmc" j.imageName (parseBmcMode j.imageMode) j.diagImagePath,
             .bmcReset false] ∧
          (updateBmcRun j env).2 =
            (match env.bmcReset with | .ok _ => none | .error e => some (.external e))) ∧
       (j.skipReset = true →
          updateBmcRun j env =
            ([.updateFirmware "bmc" j.imageName (parseBmcMode j.imageMode) j.diagImagePath],
             none)))) ∧
    (parseSpiMode j.imageMode ∈ spiValidModes → env.updateFirmware = .ok body →
      spiBodyAccepted body = true →
      ((j.skipReset = false →
          (updateSpiRun j env).1 =
            [.updateFirmware "spi" j.imageName (parseSpiMode j.imageMode) j.diagImagePath,
             .warmReset false] ∧
          (updateSpiRun j env).2 =
            (match env.warmReset with | .ok _ => none | .error e => some (.external e))) ∧
       (j.skipReset = true →
          updateSpiRun j env =
            ([.updateFirmware "spi" j.imageName (parseSpiMode j.imageMode) j.diagImagePath],
             none)))) ∧
    (j.skipReset = true →
      (∀ b, ExtCall.bmcReset b ∉ (updateBmcRun j env).1) ∧
      (∀ b, ExtCall.warmReset b ∉ (updateSpiRun j env).1)) ∧
    (∀ b, ExtCall.bmcReset b ∈ (updateBmcRun j env).1 → b = false) ∧
    (∀ b, ExtCall.warmReset b ∈ (updateSpiRun j env).1 → b = false) := by
  obtain ⟨d, g, u, f, br, wr⟩ := env
  refine ⟨?_, ?_, ?_, ?_, ?_, ?_⟩
  · intro h
    unfold buildJob
    simp [h]
  · intro hm hf
    unfold updateBmcRun runReset
    subst hf
    refine ⟨?_, ?_⟩
    · intro hsr
      cases br
      all_goals simp [hm, hsr]
    · intro hsr
      simp [hm, hsr]
  · intro hm hf hacc
    unfold updateSpiRun runReset
    subst hf
    refine ⟨?_, ?_⟩
    · intro hsr
      cases wr
      all_goals simp [hm, hsr, hacc]
    · intro hsr
      simp [hm, hsr, hacc]
  · intro hsr
    constructor
    all_goals intro b
    · rcases updateBmcRun_calls_shape j ⟨d, g, u, f, br, wr⟩ with h | h | ⟨h, hfalse⟩
      all_goals rw [h]
      all_goals simp_all
    · rcases updateSpiRun_calls_shape j ⟨d, g, u, f, br, wr⟩ with h | h | ⟨h, hfalse⟩
      all_goals rw [h]
      all_goals simp_all
  · intro b
    rcases updateBmcRun_calls_shape j ⟨d, g, u, f, br, wr⟩ with h | h | ⟨h, hfalse⟩
    all_goals rw [h]
    all_goals simp_all
  · intro b
    rcases updateSpiRun_calls_shape j ⟨d, g, u, f, br, wr⟩ with h | h | ⟨h, hfalse⟩
    all_goals rw [h]
    all_goals simp_all

/-- C8, witness: a BMC job with `skipReset` absent issues the single
`bmcReset(false)` after the update call. -/
theorem claim_C8_witness :
    optsBmc.skipReset = none ∧
    parseBmcMode (buildJob optsBmc ctxGood).imageMode ∈ bmcValidModes ∧
    (envOkWith goodBody).updateFirmware = .ok goodBody ∧
    (buildJob optsBmc ctxGood).skipReset = false ∧
    (updateBmcRun (buildJob optsBmc ctxGood) (envOkWith goodBody)).1 =
      [.updateFirmware "bmc" (buildJob optsBmc ctxGood).imageName
        (parseBmcMode (buildJob optsBmc ctxGood).imageMode)
        (buildJob optsBmc ctxGood).diagImagePath,
       .bmcReset false] :=
  ⟨rfl, by decide, rfl, rfl,
   (((claim_C8 optsBmc ctxGood (buildJob optsBmc ctxGood) (envOkWith goodBody)
        goodBody).2.1 (by decide) rfl).1 rfl).1⟩

/-- C9, counterexample. The claim asserts that *every* firmwareType outside
{"bmc", "spi"} makes the run fail because the method lookup finds no
function. But `_.capitalize` lower-cases the rest of the string, so the
firmwareType "BMC" — outside {"bmc","spi"} — resolves to `updateBmc` and the
run completes successfully. -/
theorem claim_C9_counterexample :
    jsCapitalize "BMC" = "Bmc" ∧
    constructJob { optsBmc with firmwareType := "BMC" } ctxGood =
      .ok (buildJob { optsBmc with firmwareType := "BMC" } ctxGood) ∧
    (jobRun (buildJob { optsBmc with firmwareType := "BMC" } ctxGood)
      (envOkWith goodBody)).doneArg = none := by
  refine ⟨rfl, rfl, ?_⟩
  decide

/-- C9, amended. Construction never validates `firmwareType`; for every
firmwareType whose lodash-capitalized form is neither "Bmc" nor "Spi"
(equivalently, whose lower-casing is neither "bmc" nor "spi"), the method
lookup `'update' + _.capitalize(firmwareType)` yields no function, and —
when the earlier stages succeed — the resulting `TypeError` is caught by the
run chain and passed to `_done` as the single terminal failure. -/
theorem claim_C9_amended (o : Options) (c : Context) (env : Env)
    (hb : jsCapitalize o.firmwareType ≠ "Bmc")
    (hs : jsCapitalize o.firmwareType ≠ "Spi")
    (hip : isIP4 c.nodeIp = true)
    (hd : env.retrySyncDiscovery = .ok ())
    (hg : env.getAllDevices = .ok ())
    (hu : env.uploadImageFile = .ok ()) :
    constructJob o c = .ok (buildJob o c) ∧
    (jobRun (buildJob o c) env).doneArg =
      some (.typeErrorNoMethod ("update" ++ jsCapitalize o.firmwareType)) ∧
    (jobRun (buildJob o c) env).calls.getLast? =
      some (.done (some (.typeErrorNoMethod ("update" ++ jsCapitalize o.firmwareType)))) := by
  refine ⟨rfl, ?_, ?_⟩
  all_goals unfold jobRun jobRunAux dispatchRun
  all_goals simp [buildJob, hip, hd, hg, hu, hb, hs]

/-- C9 amended, witness at firmwareType "foo". -/
theorem claim_C9_amended_witness :
    jsCapitalize "foo" ≠ "Bmc" ∧ jsCapitalize "foo" ≠ "Spi" ∧
    isIP4 ctxGood.nodeIp = true ∧
    (jobRun (buildJob { optsBmc with firmwareType := "foo" } ctxGood)
      (envOkWith goodBody)).doneArg =
      some (.typeErrorNoMethod ("update" ++ jsCapitalize "foo")) :=
  ⟨by decide, by decide, by decide,
   (claim_C9_amended { optsBmc with firmwareType := "foo" } ctxGood
     (envOkWith goodBody) (by decide) (by decide) (by decide) rfl rfl rfl).2.1⟩

/-- C6, counterexample. The claim asserts validation of `nodeIp` fails at
construction time. It does not: the constructor performs no validation, so
constructing a job over a malformed IP succeeds; the validation error is
raised only when `_run` executes `getNodeIp`. -/
theorem claim_C6_counterexample :
    isIP4 ctxBadIp.nodeIp = false ∧
    constructJob optsSpi ctxBadIp = .ok (buildJob optsSpi ctxBadIp) ∧
    (jobRun (buildJob optsSpi ctxBadIp) (envOkWith goodBody)).doneArg =
      some .validationIp := by
  refine ⟨by decide, rfl, ?_⟩
  decide

/-- C6, amended. A job whose `context.nodeIp` is not a well-formed IPv4
address is still constructed successfully, and its run fails immediately at
the start of `_run` with the validation error: the completion is the only
event — no discovery attempt (no `retrySyncDiscovery` call) and no retry
ever occurs. -/
theorem claim_C6_amended (o : Options) (c : Context) (env : Env)
    (hip : isIP4 c.nodeIp = false) :
    constructJob o c = .ok (buildJob o c) ∧
    (jobRun (buildJob o c) env).doneArg = some .validationIp ∧
    (jobRun (buildJob o c) env).calls = [.done (some .validationIp)] := by
  refine ⟨rfl, ?_, ?_⟩
  all_goals unfold jobRun jobRunAux
  all_goals simp [buildJob, hip]

/-- C6 amended, witness at the malformed IP "not-an-ip". -/
theorem claim_C6_amended_witness :
    isIP4 ctxBadIp.nodeIp = false ∧
    (jobRun (buildJob optsSpi ctxBadIp) (envOkWith goodBody)).calls =
      [.done (some .validationIp)] :=
  ⟨by decide,
   (claim_C6_amended optsSpi ctxBadIp (envOkWith goodBody) (by decide)).2.2⟩

/-- C7, confirmed (against the spec-modelled `retrySyncDiscoveryModel`,
since `JobUtils.DiagTool` is not part of the analysed sources). With a valid
node IP the run's first external call is exactly
`retrySyncDiscovery(5000, 6)` — the constructor's fixed `retryDuration` and
`retryCount`; when no attempt within the budget succeeds, the modelled
retry performs exactly 6 attempts spaced `5000` ms apart, rejects with the
discovery-timeout error, the job fails with that originating error and no
later stage executes; and whenever the modelled retry rejects, exactly 6
attempts were performed — never fewer. -/
theorem claim_C7 (o : Options) (c : Context) (env : Env) (attempt : Nat → Bool)
    (hip : isIP4 c.nodeIp = true)
    (hfail : ∀ i, i < 6 → attempt i = false)
    (henv : env.retrySyncDiscovery = retrySyncDiscoveryModel attempt 5000 6) :
    (buildJob o c).retryDuration = 5000 ∧
    (buildJob o c).retryCount = 6 ∧
    (jobRun (buildJob o c) env).calls.head? =
      some (.ext (.retrySyncDiscovery 5000 6)) ∧
    retrySyncDiscoveryModel attempt 5000 6 = .error "discovery timeout" ∧
    discoveryAttemptCount attempt 6 = 6 ∧
    (∀ i j : Nat, i + 1 < discoveryAttemptCount attempt 6 → j = i + 1 →
      discoveryAttemptTime 5000 j - discoveryAttemptTime 5000 i = 5000) ∧
    (∀ g : Nat → Bool, retrySyncDiscoveryModel g 5000 6 = .error "discovery timeout" →
      discoveryAttemptCount g 6 = 6) ∧
    (jobRun (buildJob o c) env).doneArg = some (.external "discovery timeout") ∧
    (jobRun (buildJob o c) env).calls =
      [.ext (.retrySyncDiscovery 5000 6),
       .done (some (.external "discovery timeout"))] := by
  have hnone : ∀ g : Nat → Bool, (∀ x ∈ List.range 6, g x = false) →
      (List.range 6).findIdx? (fun i => g i) = none := by
    intro g hg
    rw [List.findIdx?_eq_none_iff]
    intro x hx
    exact hg x hx
  have hallf : ∀ x ∈ List.range 6, attempt x = false := by
    intro x hx
    exact hfail x (List.mem_range.mp hx)
  have hmodel : retrySyncDiscoveryModel attempt 5000 6 = .error "discovery timeout" := by
    unfold retrySyncDiscoveryModel
    rw [if_neg]
    intro hany
    rcases List.any_eq_true.mp hany with ⟨x, hx, hx2⟩
    rw [hallf x hx] at hx2
    exact Bool.false_ne_true hx2
  have hcount : ∀ g : Nat → Bool,
      retrySyncDiscoveryModel g 5000 6 = .error "discovery timeout" →
      discoveryAttemptCount g 6 = 6 := by
    intro g hge
    unfold retrySyncDiscoveryModel at hge
    unfold discoveryAttemptCount
    rw [hnone g]
    intro x hx
    by_contra hgx
    have : (List.range 6).any (fun i => g i) = true :=
      List.any_eq_true.mpr ⟨x, hx, by simpa using hgx⟩
    rw [if_pos this] at hge
    exact Except.noConfusion hge
  refine ⟨rfl, rfl, ?_, hmodel, hcount attempt hmodel, ?_, hcount, ?_, ?_⟩
  · unfold jobRun jobRunAux
    rw [henv, hmodel]
    simp [buildJob, hip]
  · intro i j hi hj
    subst hj
    unfold discoveryAttemptTime
    omega
  · unfold jobRun jobRunAux
    rw [henv, hmodel]
    simp [buildJob, hip]
  · unfold jobRun jobRunAux
    rw [henv, hmodel]
    simp [buildJob, hip]

/-- C7, witness with an attempt oracle that never succeeds. -/
theorem claim_C7_witness :
    isIP4 ctxGood.nodeIp = true ∧
    (∀ i : Nat, i < 6 → (fun _ : Nat => false) i = false) ∧
    discoveryAttemptCount (fun _ : Nat => false) 6 = 6 ∧
    (jobRun (buildJob optsSpi ctxGood)
      { envOkWith goodBody with
          retrySyncDiscovery := retrySyncDiscoveryModel (fun _ => false) 5000 6 }).calls =
      [.ext (.retrySyncDiscovery 5000 6),
       .done (some (.external "discovery timeout"))] := by
  refine ⟨by decide, fun i _ => rfl, ?_, ?_⟩
  · exact (claim_C7 optsSpi ctxGood
      { envOkWith goodBody with
          retrySyncDiscovery := retrySyncDiscoveryModel (fun _ => false) 5000 6 }
      (fun _ => false) (by decide) (fun i _ => rfl) rfl).2.2.2.2.1
  · exact (claim_C7 optsSpi ctxGood
      { envOkWith goodBody with
          retrySyncDiscovery := retrySyncDiscoveryModel (fun _ => false) 5000 6 }
      (fun _ => false) (by decide) (fun i _ => rfl) rfl).2.2.2.2.2.2.2.2

/-- C10, witness: BMC runs resolving with `goodBody` and with `duckBody`
coincide. -/
theorem claim_C10_witness :
    jsCapitalize (buildJob optsBmc ctxGood).firmwareType = "Bmc" ∧
    jobRun (buildJob optsBmc ctxGood)
        { envOkWith goodBody with updateFirmware := .ok goodBody } =
      jobRun (buildJob optsBmc ctxGood)
        { envOkWith goodBody with updateFirmware := .ok duckBody } :=
  ⟨by decide,
   (claim_C10 (buildJob optsBmc ctxGood) (envOkWith goodBody) goodBody duckBody
     (by decide)).2.1⟩

/-- C2, confirmed. Every run completes exactly once: the completion event is
the single `_done` in the trace and its last event; its argument is exactly
the originating error of the first failing stage (IP validation, discovery,
enumeration, upload, update dispatch, optional reset) — `none` exactly when
every stage succeeded; and after a failing stage no later stage executes
(the trace stops at the failing call). -/
theorem claim_C2 (j : Job) (env : Env) :
    (jobRun j env).doneArg = firstFailure j env ∧
    (jobRun j env).calls.countP (fun c => isDoneCall c) = 1 ∧
    (jobRun j env).calls.getLast? = some (.done (firstFailure j env)) ∧
    ((jobRun j env).doneArg = none ↔
      stageFailures j env = [none, none, none, none, none, none]) ∧
    (isIP4 j.context.nodeIp = false →
      (jobRun j env).calls = [.done (some .validationIp)]) ∧
    (∀ e, isIP4 j.context.nodeIp = true → env.retrySyncDiscovery = .error e →
      (jobRun j env).calls =
        [.ext (.retrySyncDiscovery j.retryDuration j.retryCount),
         .done (some (.external e))]) ∧
    (∀ e, isIP4 j.context.nodeIp = true → env.retrySyncDiscovery = .ok () →
      env.getAllDevices = .error e →
      (jobRun j env).calls =
        [.ext (.retrySyncDiscovery j.retryDuration j.retryCount),
         .ext .getAllDevices, .done (some (.external e))]) ∧
    (∀ e, isIP4 j.context.nodeIp = true → env.retrySyncDiscovery = .ok () →
      env.getAllDevices = .ok () → env.uploadImageFile = .error e →
      (jobRun j env).calls =
        [.ext (.retrySyncDiscovery j.retryDuration j.retryCount),
         .ext .getAllDevices,
         .ext (.uploadImageFile j.imageUrl j.imageName "/api/upload/file"),
         .done (some (.external e))]) := by
  have hdone : (jobRun j env).doneArg = firstFailure j env := by
    unfold jobRun
    simpa using jobRunAux_snd j env
  refine ⟨hdone, ?_, ?_, ?_, ?_, ?_, ?_, ?_⟩
  · unfold jobRun
    simp [List.countP_append, countDone_map_ext, List.countP_cons, isDoneCall]
  · unfold jobRun
    simp [List.getLast?_concat, jobRunAux_snd j env]
  · rw [hdone]
    unfold firstFailure
    rw [firstSome_eq_none_iff]
    unfold stageFailures
    simp
  · intro hip
    unfold jobRun jobRunAux
    simp [hip]
  · intro e hip hd
    unfold jobRun jobRunAux
    simp [hip, hd]
  · intro e hip hd hg
    unfold jobRun jobRunAux
    simp [hip, hd, hg]
  · intro e hip hd hg hu
    unfold jobRun jobRunAux
    simp [hip, hd, hg, hu]

/-- C2, witness at a fully successful SPI run. -/
theorem claim_C2_witness :
    (jobRun (buildJob optsSpi ctxGood) (envOkWith goodBody)).doneArg =
      firstFailure (buildJob optsSpi ctxGood) (envOkWith goodBody) ∧
    (jobRun (buildJob optsSpi ctxGood) (envOkWith goodBody)).calls.countP
      (fun c => isDoneCall c) = 1 ∧
    (∀ e, isIP4 ctxGood.nodeIp = true →
      (envOkWith goodBody).retrySyncDiscovery = .error e →
      (jobRun (buildJob optsSpi ctxGood) (envOkWith goodBody)).calls =
        [.ext (.retrySyncDiscovery (buildJob optsSpi ctxGood).retryDuration
          (buildJob optsSpi ctxGood).retryCount),
         .done (some (.external e))]) :=
  ⟨(claim_C2 (buildJob optsSpi ctxGood) (envOkWith goodBody)).1,
   (claim_C2 (buildJob optsSpi ctxGood) (envOkWith goodBody)).2.1,
   (claim_C2 (buildJob optsSpi ctxGood) (envOkWith goodBody)).2.2.2.2.2.1⟩
